import Mathlib

/-!
Verification of the task-orchestration core of `platform-tui`
(`src/main.rs`, `src/app/identity.rs`,
`src/ui/views/contracts/fetch_contract.rs`,
`src/ui/views/contracts/document_type/contested_resources.rs`).

The Rust code is shallowly embedded: machine integers (`u64`) are `Nat`
with an explicit `% 2^64` at the multiplications that may wrap, external
collaborators (terminal input, the remote platform service, the base58
parser) are parameters, and code that may abort (`expect`, stream
failure) returns `Option`/`Except`.
-/

namespace PlatformTui

/-- Modulus of Rust's `u64` arithmetic. -/
def U64 : Nat := 2 ^ 64

/-- `main.rs` line 138: `start_dash * 100000000` — duffs per Dash (10^8). -/
def DUFFS_PER_DASH : Nat := 100000000

/-- `main.rs` lines 169-171: `start_dash * 100000000000` — credits per Dash
(10^11), the unit of `identity.balance()`. -/
def CREDITS_PER_DASH : Nat := 100000000000

/-- `backend::identities::IdentityTask` variants used by `main.rs`. -/
inductive IdentityTask where
  | RegisterIdentity (amount : Nat)
  | TopUpIdentity (amount : Nat)
  | Refresh
deriving DecidableEq, Repr

/-- `backend::wallet::WalletTask` variant used by `main.rs`. -/
inductive WalletTask where
  | Refresh
deriving DecidableEq, Repr

/-- `backend::ContractTask` variants used by `fetch_contract.rs`. -/
inductive ContractTask where
  | FetchDashpayContract
  | FetchDPNSContract
deriving DecidableEq, Repr

/-- Opaque `platform_value::Value` (only equality of values matters here). -/
abbrev PlatformValue := Nat

/-- Opaque `Identifier` (a 32-byte id; only equality matters here). -/
abbrev Identifier := Nat

/-- `backend::documents::DocumentTask` variants used by
`contested_resources.rs`. The vote payload of `VoteOnContestedResource`
(a `VotePoll` and a `ResourceVoteChoice`) is carried opaquely. -/
inductive DocumentTask where
  | QueryVoteContenders (indexName : String) (indexValues : List PlatformValue)
      (docTypeName : String) (contractId : Identifier)
  | VoteOnContestedResource (votePoll : Nat) (choice : Nat)
deriving DecidableEq, Repr

/-- `backend::Task`: the closed union of task domains reaching `main.rs`
and the screens in scope. -/
inductive Task where
  | Identity (t : IdentityTask)
  | Wallet (t : WalletTask)
  | Contract (t : ContractTask)
  | Document (t : DocumentTask)
deriving DecidableEq, Repr

/-- Whether a task is an identity top-up. -/
def Task.isTopUp : Task → Bool
  | .Identity (.TopUpIdentity _) => true
  | _ => false

/-- CLI funding precheck, `main.rs` lines 135-175.  `dashArg` is
`args.dash`; `loadedBalance` is `none` when no identity is loaded
(line 137) and `some b` when one is loaded, `b` being the credit balance
read back at lines 155-162 after the two refresh tasks ran.  Returned is
the list of tasks submitted to `backend.run_task`, in order. -/
def cliFundingTasks (dashArg : Option Nat) (loadedBalance : Option Nat) : List Task :=
  match dashArg with
  | none => []
  | some startDash =>
    match loadedBalance with
    | none =>
      [Task.Identity (IdentityTask.RegisterIdentity (startDash * DUFFS_PER_DASH % U64))]
    | some balance =>
      let floorCredits := startDash * CREDITS_PER_DASH % U64
      [Task.Wallet WalletTask.Refresh, Task.Identity IdentityTask.Refresh] ++
        if balance < floorCredits then
          [Task.Identity (IdentityTask.TopUpIdentity ((floorCredits - balance) / 1000))]
        else []

/-- Key codes of `tuirealm::event::Key` used by the screens in scope. -/
inductive KeyCode where
  | Char (c : Char)
  | Down
  | Up
  | OtherKey
deriving DecidableEq, Repr

/-- Key modifiers of `tuirealm::event::KeyModifiers` used in scope. -/
inductive KeyModifiers where
  | NONE
  | CONTROL
  | OtherMod
deriving DecidableEq, Repr

/-- `tuirealm::event::KeyEvent`. -/
structure KeyEvent where
  code : KeyCode
  modifiers : KeyModifiers
deriving DecidableEq, Repr

/-- Completion payloads (`backend::CompletedTaskPayload`) reaching the
screens in scope; payloads other than the contenders result are carried
opaquely as strings. -/
inductive CompletedTaskPayload where
  | ContestedResourceContenders (votePoll : Nat) (contenders : List Identifier)
  | OtherPayload (s : String)

/-- `backend::BackendEvent`: completion events produced by
`backend.run_task`; `execution_result` is the task's classified
`Ok`/`Err` outcome (the backend error is carried opaquely as a string). -/
inductive BackendEvent where
  | TaskCompleted (task : Task) (execution_result : Except String CompletedTaskPayload)
  | TaskCompletedStateChange (task : Task)
      (execution_result : Except String CompletedTaskPayload)

/-- `crate::Event`: the high-level event stream of the multiplexer
(`main.rs` lines 200-210). -/
inductive Event where
  | Key (k : KeyEvent)
  | Backend (b : BackendEvent)
  | RedrawDebounceTimeout

/-- `ui::UiFeedback`, the output of `ui.on_event` consumed by the main
loop (`main.rs` lines 223-238). -/
inductive UiFeedback where
  | None
  | Redraw
  | Quit
  | ExecuteTask (task : Task)

/-- The debounce quiet interval: `Duration::from_millis(10)` at
`main.rs` line 231. -/
def debounceMillis : Nat := 10

/-- State of the main loop (`main.rs` lines 193-197) plus two
observation fields: `renders` counts the `ui.redraw()` calls performed
and `forwarded` records the events passed to `ui.on_event`.
`backendTask` models the at-most-one in-flight backend future by the
task it is running; `redrawTimer` models the pending debounced-redraw
sleep by its duration in milliseconds.  A fused future that has
completed is never polled again, so consuming a source clears its
field. -/
structure MuxState where
  active : Bool
  backendTask : Option Task
  redrawTimer : Option Nat
  renders : Nat
  forwarded : List Event

/-- Feedback handling, `main.rs` lines 223-238. -/
def applyFeedback (s : MuxState) : UiFeedback → MuxState
  | UiFeedback.Quit => { s with active := false }
  | UiFeedback.ExecuteTask task =>
      { s with backendTask := some task, renders := s.renders + 1 }
  | UiFeedback.Redraw => { s with redrawTimer := some debounceMillis }
  | UiFeedback.None => s

/-- One item yielded by the raw terminal input stream
(`terminal_event_stream.next()`): stream end, stream error, or a
crossterm event (resize, key press, or any other event kind). -/
inductive RawInput where
  | closed
  | streamError
  | resize
  | keyPress (k : KeyEvent)
  | otherInput

/-- Which of the three racing sources won the `select!` of an
iteration: the input stream, the in-flight backend future (carrying its
completion event), or the debounce timer. -/
inductive Source where
  | input (i : RawInput)
  | taskDone (b : BackendEvent)
  | timerFired

/-- Outcome of the `select!` arms at `main.rs` lines 200-210: abort the
process, redraw and `continue`, or produce an optional `Event`. -/
inductive SelectResult where
  | fatal
  | redrawContinue
  | ev (e : Option Event)

/-- The `select!` arms, `main.rs` lines 200-210: a closed or failing
input stream is fatal; a resize redraws immediately and continues; a
key press is wrapped as `Event::Key`; any other input event yields no
event; a finished backend task yields `Event::Backend`; the timer
yields `Event::RedrawDebounceTimeout`. -/
def selectEvent : Source → SelectResult
  | Source.input RawInput.closed => SelectResult.fatal
  | Source.input RawInput.streamError => SelectResult.fatal
  | Source.input RawInput.resize => SelectResult.redrawContinue
  | Source.input (RawInput.keyPress k) => SelectResult.ev (some (Event.Key k))
  | Source.input RawInput.otherInput => SelectResult.ev none
  | Source.taskDone b => SelectResult.ev (some (Event.Backend b))
  | Source.timerFired => SelectResult.ev (some Event.RedrawDebounceTimeout)

/-- A completed (fused) future is terminated and never selected again:
consuming the backend-task or timer source clears its handle. -/
def consumeSource (s : MuxState) : Source → MuxState
  | Source.taskDone _ => { s with backendTask := none }
  | Source.timerFired => { s with redrawTimer := none }
  | Source.input _ => s

/-- Whether an event is dispatched to the active screen
(`main.rs` lines 212-221): key and backend events are, the debounce
timeout is consumed internally. -/
def isScreenEvent : Event → Bool
  | Event.Key _ => true
  | Event.Backend _ => true
  | Event.RedrawDebounceTimeout => false

/-- Event dispatch, `main.rs` lines 212-221: key and backend events go
to `ui.on_event` (recorded in `forwarded`) and yield the screen's
feedback; the debounce timeout renders immediately and yields
`UiFeedback::None`; no event yields `UiFeedback::None`. -/
def dispatchEvent (screen : Event → UiFeedback) (s : MuxState) :
    Option Event → MuxState × UiFeedback
  | some (Event.Key k) =>
      ({ s with forwarded := s.forwarded ++ [Event.Key k] }, screen (Event.Key k))
  | some (Event.Backend b) =>
      ({ s with forwarded := s.forwarded ++ [Event.Backend b] }, screen (Event.Backend b))
  | some Event.RedrawDebounceTimeout =>
      ({ s with renders := s.renders + 1 }, UiFeedback.None)
  | none => (s, UiFeedback.None)

/-- One iteration of the main loop (`main.rs` lines 199-239), given the
active screen's feedback function and the source that won the race.
`none` models abnormal process termination on input-stream failure. -/
def iteration (screen : Event → UiFeedback) (s : MuxState) (src : Source) :
    Option MuxState :=
  match selectEvent src with
  | SelectResult.fatal => none
  | SelectResult.redrawContinue => some { s with renders := s.renders + 1 }
  | SelectResult.ev event =>
      let p := dispatchEvent screen (consumeSource s src) event
      some (applyFeedback p.1 p.2)

/-- A fresh loop state: `active = true`, no in-flight task, no pending
timer (`main.rs` lines 193-197). -/
def initMux : MuxState :=
  { active := true, backendTask := none, redrawTimer := none,
    renders := 0, forwarded := [] }

/-- A screen that requests nothing (used to instantiate theorems). -/
def inertScreen : Event → UiFeedback := fun _ => UiFeedback.None

/-- A screen that always asks to quit (used to instantiate theorems). -/
def quitScreen : Event → UiFeedback := fun _ => UiFeedback.Quit

/-- Two concrete tasks used to instantiate theorems. -/
def sampleTask1 : Task := Task.Contract ContractTask.FetchDashpayContract

/-- Second concrete task used to instantiate theorems. -/
def sampleTask2 : Task := Task.Contract ContractTask.FetchDPNSContract

/-- A concrete key event used to instantiate theorems. -/
def sampleKey : KeyEvent := { code := KeyCode.Char 'x', modifiers := KeyModifiers.NONE }

/-- An identity record: its identifier and credit balance
(`dpp::Identity` via the accessors `id()` and `balance()` used in
`main.rs`). -/
structure Identity where
  id : Identifier
  balance : Nat
deriving DecidableEq, Repr

/-- The lockable cross-screen state fields touched by the startup block
of `main.rs` lines 109-124.  `known_identities` is the
identifier-keyed `BTreeMap`, embedded as an association list keyed by
lookup. -/
structure AppState where
  loaded_identity : Option Identity
  known_identities : List (Identifier × Identity)
  selected_strategy : Option String
deriving DecidableEq, Repr

/-- `known_identities.entry(id).or_insert_with(|| clone)`: insert only
when no entry for the key is present; an existing entry is untouched. -/
def orInsertWith (m : List (Identifier × Identity)) (k : Identifier)
    (v : Identity) : List (Identifier × Identity) :=
  if (m.lookup k).isSome then m else (k, v) :: m

/-- Startup initialization, `main.rs` lines 109-124: add the loaded
identity (if any) to `known_identities` if absent, and reset
`selected_strategy` to `None`. -/
def startupInit (st : AppState) : AppState :=
  let known :=
    match st.loaded_identity with
    | some ident => orInsertWith st.known_identities ident.id ident
    | none => st.known_identities
  { st with known_identities := known, selected_strategy := none }

/-- `dapi_grpc get_identity_response::Result`: the response carries
either the serialized identity bytes or a proof (carried opaquely). -/
inductive ProtoResult where
  | Identity (bytes : List Nat)
  | Proof (p : Nat)
deriving DecidableEq, Repr

/-- `dapi_grpc::GetIdentityResponse`: optional result plus opaque
response metadata (the `..` of the pattern at
`app/identity.rs` lines 30-33). -/
structure GetIdentityResponse where
  result : Option ProtoResult
  metadata : Option Nat
deriving DecidableEq, Repr

/-- Modelled from the spec: `crate::app::error::Error` (`app/error.rs`
is not among the provided sources; `app/identity.rs` shows only its
`DapiError` variant and the `From` conversion applied by `?` to the
failure of `Identifier::from_string`).  Per the spec's propagation
policy the UI only sees already-classified typed errors: an
invalid-identifier (parse) error or `Error::DapiError`. -/
inductive AppError where
  | InvalidIdentifier
  | DapiError
deriving DecidableEq, Repr

/-- `fetch_identity_bytes_by_b58_id`, `app/identity.rs` lines 22-39,
parametrized by the external base58 parser (`Identifier::from_string`;
`none` is a parse failure, propagated by `?` as the typed
invalid-identifier error) and by the external transport call
`request.execute` with its opaque transport-error type `ε`. -/
def fetch_identity_bytes_by_b58_id {ε : Type}
    (parseB58 : String → Option Identifier)
    (execute : Identifier → Except ε GetIdentityResponse)
    (b58_id : String) : Except AppError (List Nat) :=
  match parseB58 b58_id with
  | none => Except.error AppError.InvalidIdentifier
  | some identifier =>
    match execute identifier with
    | Except.ok resp =>
      match resp.result with
      | some (ProtoResult.Identity bytes) => Except.ok bytes
      | _ => Except.error AppError.DapiError
    | Except.error _ => Except.error AppError.DapiError

/-- A parser that accepts every string (used to instantiate theorems). -/
def sampleParse : String → Option Identifier := fun _ => some 42

/-- A transport that always returns identity bytes `[1, 2]` (used to
instantiate theorems). -/
def sampleExecute : Identifier → Except Nat GetIdentityResponse :=
  fun _ => Except.ok { result := some (ProtoResult.Identity [1, 2]), metadata := none }

/-- A contested index (`dpp` index): only its `name` is read by the
screen. -/
structure Index where
  name : String
deriving DecidableEq, Repr

/-- `dpp DocumentType` as seen by `contested_resources.rs`: its `name()`
and the result of the external accessor `find_contested_index()`
(documents of a type with no contested index yield `none`). -/
structure DocumentType where
  name : String
  find_contested_index : Option Index
deriving DecidableEq, Repr

/-- `ContestedResource` (`drive_proof_verifier::types`): a single
`Value` variant. -/
inductive ContestedResource where
  | Value (v : PlatformValue)
deriving DecidableEq, Repr

/-- `ui::screen::ScreenFeedback` variants produced by the screens in
scope; `Form` carries the vote form controller's construction data. -/
inductive ScreenFeedback where
  | None
  | Redraw
  | PreviousScreen
  | Task (task : Task) (block : Bool)
  | Form (votePoll : Nat) (contenders : List Identifier)

/-- `ContestedResourcesScreenController` (`contested_resources.rs`
lines 51-57): the fetched batch, the list widget's selected line
(`resource_select.state().unwrap_one().unwrap_usize()`), and the
contract and document type the screen was opened for.  The two
render-only widgets are presentation state with no decision logic. -/
structure ContestedResourcesScreenController where
  current_batch : List ContestedResource
  selected_index : Nat
  data_contract_id : Identifier
  document_type : DocumentType
deriving DecidableEq, Repr

/-- `get_selected_resource`, `contested_resources.rs` lines 119-128. -/
def get_selected_resource (s : ContestedResourcesScreenController) :
    Option PlatformValue :=
  (s.current_batch.get? s.selected_index).bind fun doc =>
    match doc with
    | ContestedResource.Value v => some v

/-- The list widget's cursor moving down one row
(`tui_realm_stdlib::List`, `Cmd::Move(Direction::Down)`): external
widget semantics, bounded by the last row. -/
def moveSelectionDown (s : ContestedResourcesScreenController) :
    ContestedResourcesScreenController :=
  if s.selected_index + 1 < s.current_batch.length then
    { s with selected_index := s.selected_index + 1 }
  else s

/-- The list widget's cursor moving up one row
(`Cmd::Move(Direction::Up)`): external widget semantics, bounded at 0. -/
def moveSelectionUp (s : ContestedResourcesScreenController) :
    ContestedResourcesScreenController :=
  { s with selected_index := s.selected_index - 1 }

/-- `ContestedResourcesScreenController::on_event`,
`contested_resources.rs` lines 154-232.  `none` models a panicking
`expect` (no resource at the selection, or no contested index on the
document type); otherwise the possibly-updated screen and its feedback
are returned. -/
def ContestedResourcesScreenController.on_event
    (s : ContestedResourcesScreenController) (e : Event) :
    Option (ContestedResourcesScreenController × ScreenFeedback) :=
  match e with
  | Event.Key ⟨KeyCode.Char 'q', KeyModifiers.NONE⟩ =>
      some (s, ScreenFeedback.PreviousScreen)
  | Event.Key ⟨KeyCode.Char 'v', KeyModifiers.NONE⟩ =>
      match get_selected_resource s with
      | none => none
      | some resource =>
        match s.document_type.find_contested_index with
        | none => none
        | some index =>
          some (s, ScreenFeedback.Task
            (Task.Document (DocumentTask.QueryVoteContenders index.name [resource]
              s.document_type.name s.data_contract_id)) true)
  | Event.Key ⟨KeyCode.Down, KeyModifiers.NONE⟩ => some (s, ScreenFeedback.Redraw)
  | Event.Key ⟨KeyCode.Up, KeyModifiers.NONE⟩ => some (s, ScreenFeedback.Redraw)
  | Event.Key ⟨KeyCode.Char 'n', KeyModifiers.CONTROL⟩ =>
      some (moveSelectionDown s, ScreenFeedback.Redraw)
  | Event.Key ⟨KeyCode.Char 'p', KeyModifiers.CONTROL⟩ =>
      some (moveSelectionUp s, ScreenFeedback.Redraw)
  | Event.Backend (BackendEvent.TaskCompleted
      (Task.Document (DocumentTask.QueryVoteContenders _ _ _ _))
      (Except.ok (CompletedTaskPayload.ContestedResourceContenders votePoll contenders))) =>
      some (s, ScreenFeedback.Form votePoll contenders)
  | _ => some (s, ScreenFeedback.None)

/-- The vote command key event (`'v'`, no modifiers). -/
def vKey : Event := Event.Key ⟨KeyCode.Char 'v', KeyModifiers.NONE⟩

/-- A contested-resources screen with a one-element batch, the cursor on
it, and a document type with no contested index. -/
def noIndexScreen : ContestedResourcesScreenController :=
  { current_batch := [ContestedResource.Value 7], selected_index := 0,
    data_contract_id := 1,
    document_type := { name := "doc", find_contested_index := none } }

/-- The same screen but with a contested index named `idx`. -/
def withIndexScreen : ContestedResourcesScreenController :=
  { current_batch := [ContestedResource.Value 7], selected_index := 0,
    data_contract_id := 1,
    document_type := { name := "doc", find_contested_index := some { name := "idx" } } }

/-- A concrete identity used to instantiate theorems. -/
def sampleIdentity : Identity := { id := 1, balance := 10 }

/-- A concrete app state with a loaded identity not yet known and a
stale persisted strategy selection. -/
def sampleAppState : AppState :=
  { loaded_identity := some sampleIdentity,
    known_identities := [(2, { id := 2, balance := 5 })],
    selected_strategy := some "stale" }

/- ------------------------------------------------------------------ -/
/- Theorems                                                           -/
/- ------------------------------------------------------------------ -/

/-- Rescaling a credit amount (10^11 per Dash) to duffs (10^8 per Dash)
is exactly the code's division by 1000. -/
theorem credits_to_duffs (x : Nat) :
    x * DUFFS_PER_DASH / CREDITS_PER_DASH = x / 1000 := by
  have h : CREDITS_PER_DASH = DUFFS_PER_DASH * 1000 := by
    norm_num [CREDITS_PER_DASH, DUFFS_PER_DASH]
  rw [h, ← Nat.div_div_eq_div_mul,
    Nat.mul_div_cancel _ (by norm_num [DUFFS_PER_DASH] : 0 < DUFFS_PER_DASH)]

/-- C1: with an identity loaded at a balance below the requested floor,
the top-up amount submitted is exactly the shortfall
`startDash * CREDITS_PER_DASH - balance` rescaled from credits
(10^11 per Dash) to the canonical minimal unit (10^8 per Dash): the code's
division by 1000 at `main.rs` line 171 equals
`shortfall * DUFFS_PER_DASH / CREDITS_PER_DASH`. -/
theorem C1_topup_shortfall (startDash balance : Nat)
    (hfit : startDash * CREDITS_PER_DASH < U64)
    (hlow : balance < startDash * CREDITS_PER_DASH) :
    cliFundingTasks (some startDash) (some balance) =
      [Task.Wallet WalletTask.Refresh, Task.Identity IdentityTask.Refresh,
       Task.Identity (IdentityTask.TopUpIdentity
         ((startDash * CREDITS_PER_DASH - balance) * DUFFS_PER_DASH / CREDITS_PER_DASH))] := by
  have hmod : startDash * CREDITS_PER_DASH % U64 = startDash * CREDITS_PER_DASH :=
    Nat.mod_eq_of_lt hfit
  have hconv := credits_to_duffs (startDash * CREDITS_PER_DASH - balance)
  simp only [cliFundingTasks, hmod, if_pos hlow, hconv, List.append_assoc]
  rfl

/-- C1 witness: the spec scenario — balance `2*10^11` credits,
`start_dash = 5` (floor `5*10^11` credits) — yields a single
`TopUpIdentity` for the 3-Dash shortfall expressed at 10^8 minimal units
per Dash, i.e. `3 * DUFFS_PER_DASH`. -/
theorem C1_topup_shortfall_witness :
    cliFundingTasks (some 5) (some (2 * 10 ^ 11)) =
      [Task.Wallet WalletTask.Refresh, Task.Identity IdentityTask.Refresh,
       Task.Identity (IdentityTask.TopUpIdentity (3 * DUFFS_PER_DASH))] := by
  have h := C1_topup_shortfall 5 (2 * 10 ^ 11)
    (by decide) (by decide)
  rw [h]
  decide

/-- C3: when the refreshed balance is at least the requested floor, the
funding precheck submits only the two refresh tasks — the top-up branch
is skipped entirely and no `TopUpIdentity` task is ever issued. -/
theorem C3_no_topup_when_funded (startDash balance : Nat)
    (hfit : startDash * CREDITS_PER_DASH < U64)
    (hge : startDash * CREDITS_PER_DASH ≤ balance) :
    cliFundingTasks (some startDash) (some balance) =
      [Task.Wallet WalletTask.Refresh, Task.Identity IdentityTask.Refresh] ∧
    ∀ t ∈ cliFundingTasks (some startDash) (some balance), t.isTopUp = false := by
  have hmod : startDash * CREDITS_PER_DASH % U64 = startDash * CREDITS_PER_DASH :=
    Nat.mod_eq_of_lt hfit
  have hnotlt : ¬ balance < startDash * CREDITS_PER_DASH := Nat.not_lt.mpr hge
  have heq : cliFundingTasks (some startDash) (some balance) =
      [Task.Wallet WalletTask.Refresh, Task.Identity IdentityTask.Refresh] := by
    simp only [cliFundingTasks, hmod, if_neg hnotlt, List.append_nil]
  refine ⟨heq, ?_⟩
  rw [heq]
  intro t ht
  simp only [List.mem_cons, List.not_mem_nil, or_false] at ht
  rcases ht with rfl | rfl <;> rfl

/-- C3 witness: balance exactly at the floor (`5*10^11` credits for
`start_dash = 5`) issues only the refresh tasks. -/
theorem C3_no_topup_when_funded_witness :
    cliFundingTasks (some 5) (some (5 * 10 ^ 11)) =
      [Task.Wallet WalletTask.Refresh, Task.Identity IdentityTask.Refresh] :=
  (C3_no_topup_when_funded 5 (5 * 10 ^ 11) (by decide) (by decide)).1

/-- C4: with no loaded identity and `start_dash = 5` the precheck issues
exactly one `RegisterIdentity` task with amount `5 * 10^8` minimal units
(duffs) and no `TopUpIdentity` task. -/
theorem C4_register_scenario :
    cliFundingTasks (some 5) none =
      [Task.Identity (IdentityTask.RegisterIdentity (5 * 10 ^ 8))] ∧
    (cliFundingTasks (some 5) none).all (fun t => !t.isTopUp) = true := by
  constructor
  · decide
  · decide

/-- Feedback handling never touches the forwarded-events log. -/
theorem applyFeedback_forwarded (s : MuxState) (fb : UiFeedback) :
    (applyFeedback s fb).forwarded = s.forwarded := by
  cases fb <;> rfl

/-- Feedback handling clears `active` exactly on `Quit`. -/
theorem applyFeedback_active (s : MuxState) (fb : UiFeedback) :
    (applyFeedback s fb).active = false ↔
      (s.active = false ∨ fb = UiFeedback.Quit) := by
  cases fb <;> simp [applyFeedback]

/-- C2: over any non-empty run of `ExecuteTask` feedbacks with no
intervening completion, each feedback overwrites the single in-flight
handle (`backend_task = Some(...)`, `main.rs` line 226) and performs an
immediate redraw (`ui.redraw()`, line 227), so the loop ends up holding
only the last submitted future; the state's single `Option` handle is
the at-most-one-in-flight invariant. -/
theorem C2_supersession (s : MuxState) (ts : List Task) (h : ts ≠ []) :
    ((ts.map UiFeedback.ExecuteTask).foldl applyFeedback s).backendTask
      = ts.getLast? ∧
    ((ts.map UiFeedback.ExecuteTask).foldl applyFeedback s).renders
      = s.renders + ts.length := by
  induction ts generalizing s with
  | nil => exact absurd rfl h
  | cons t rest ih =>
    cases rest with
    | nil => exact ⟨rfl, rfl⟩
    | cons t2 r2 =>
      have hstep := ih (applyFeedback s (UiFeedback.ExecuteTask t)) (by simp)
      refine ⟨?_, ?_⟩
      · rw [List.getLast?_cons_cons]
        exact hstep.1
      · have hr : (applyFeedback s (UiFeedback.ExecuteTask t)).renders
            = s.renders + 1 := rfl
        have h2 := hstep.2
        simp only [List.map_cons, List.foldl_cons] at h2 ⊢
        rw [h2, hr]
        simp only [List.length_cons]
        omega

/-- C2 witness: two consecutive `ExecuteTask` feedbacks leave the loop
holding only the second task's future, with two immediate redraws. -/
theorem C2_supersession_witness :
    (([sampleTask1, sampleTask2].map UiFeedback.ExecuteTask).foldl
        applyFeedback initMux).backendTask = some sampleTask2 ∧
    (([sampleTask1, sampleTask2].map UiFeedback.ExecuteTask).foldl
        applyFeedback initMux).renders = initMux.renders + 2 := by
  have h := C2_supersession initMux [sampleTask1, sampleTask2] (by decide)
  exact ⟨h.1, h.2⟩

/-- Any positive number of consecutive `Redraw` feedbacks only (re)arm
the debounce timer at the fixed 10 ms interval; nothing else in the
loop state changes. -/
theorem redraw_fold (n : Nat) (hn : 0 < n) (s : MuxState) :
    (List.replicate n UiFeedback.Redraw).foldl applyFeedback s
      = { s with redrawTimer := some debounceMillis } := by
  induction n generalizing s with
  | zero => cases hn
  | succ m ih =>
    cases Nat.eq_zero_or_pos m with
    | inl h0 => subst h0; rfl
    | inr hpos =>
      rw [List.replicate_succ, List.foldl_cons, ih hpos]
      rfl

/-- C5: each of `n > 0` `Redraw` feedbacks (re)arms the 10 ms debounce
timer (`main.rs` lines 229-236) without rendering; when the armed timer
then fires, the resulting `RedrawDebounceTimeout` event performs exactly
one render and is consumed internally — the forwarded-events log is
unchanged, so it never reaches the screen (`main.rs` lines 216-219). -/
theorem C5_redraw_coalescing (screen : Event → UiFeedback) (s : MuxState)
    (n : Nat) (hn : 0 < n) :
    ((List.replicate n UiFeedback.Redraw).foldl applyFeedback s).redrawTimer
        = some debounceMillis ∧
    debounceMillis = 10 ∧
    ((List.replicate n UiFeedback.Redraw).foldl applyFeedback s).renders
        = s.renders ∧
    iteration screen ((List.replicate n UiFeedback.Redraw).foldl applyFeedback s)
        Source.timerFired
      = some { s with redrawTimer := none, renders := s.renders + 1 } := by
  rw [redraw_fold n hn s]
  exact ⟨rfl, rfl, rfl, rfl⟩

/-- C5 witness: three rapid `Redraw` feedbacks from a fresh loop state
leave one armed 10 ms timer and no render; the single timeout then
yields exactly one render, forwarded to no screen. -/
theorem C5_redraw_coalescing_witness :
    ((List.replicate 3 UiFeedback.Redraw).foldl applyFeedback initMux).redrawTimer
        = some debounceMillis ∧
    debounceMillis = 10 ∧
    ((List.replicate 3 UiFeedback.Redraw).foldl applyFeedback initMux).renders
        = initMux.renders ∧
    iteration inertScreen
        ((List.replicate 3 UiFeedback.Redraw).foldl applyFeedback initMux)
        Source.timerFired
      = some { initMux with redrawTimer := none, renders := initMux.renders + 1 } :=
  C5_redraw_coalescing inertScreen initMux 3 (by decide)

/-- C6: a terminal resize performs an immediate render and is not
forwarded to the active screen (the forwarded log and all other fields
are untouched, `main.rs` line 204); a key press is wrapped as
`Event::Key` and forwarded to the active screen (`main.rs` line 205). -/
theorem C6_resize_and_keys (screen : Event → UiFeedback) (s : MuxState)
    (k : KeyEvent) :
    iteration screen s (Source.input RawInput.resize)
        = some { s with renders := s.renders + 1 } ∧
    (∃ t, iteration screen s (Source.input (RawInput.keyPress k)) = some t ∧
        t.forwarded = s.forwarded ++ [Event.Key k]) := by
  refine ⟨rfl, ?_⟩
  refine ⟨applyFeedback { s with forwarded := s.forwarded ++ [Event.Key k] }
    (screen (Event.Key k)), rfl, ?_⟩
  exact applyFeedback_forwarded _ _

/-- C6 witness: from a fresh loop state, a resize renders immediately
and forwards nothing, and a key press is forwarded wrapped as a `Key`
event. -/
theorem C6_resize_and_keys_witness :
    iteration inertScreen initMux (Source.input RawInput.resize)
        = some { initMux with renders := initMux.renders + 1 } ∧
    (∃ t, iteration inertScreen initMux
        (Source.input (RawInput.keyPress sampleKey)) = some t ∧
        t.forwarded = initMux.forwarded ++ [Event.Key sampleKey]) :=
  C6_resize_and_keys inertScreen initMux sampleKey

/-- C7: from an active loop state, an iteration aborts the process
exactly when the input stream ends or fails (`main.rs` lines 202-203),
and an iteration that completes leaves the loop flag cleared exactly
when the selected source produced a screen-dispatched event whose
feedback was `Quit` (`main.rs` line 224); no other event or feedback
exits the loop. -/
theorem C7_exit_conditions (screen : Event → UiFeedback) (s : MuxState)
    (hact : s.active = true) (src : Source) :
    (iteration screen s src = none ↔
      src = Source.input RawInput.closed ∨ src = Source.input RawInput.streamError) ∧
    (∀ t, iteration screen s src = some t →
      (t.active = false ↔
        ∃ e, selectEvent src = SelectResult.ev (some e) ∧ isScreenEvent e = true ∧
          screen e = UiFeedback.Quit)) := by
  cases src with
  | input i =>
    cases i with
    | closed => exact ⟨by simp [iteration, selectEvent], by intro t ht; cases ht⟩
    | streamError => exact ⟨by simp [iteration, selectEvent], by intro t ht; cases ht⟩
    | resize =>
      refine ⟨by simp [iteration, selectEvent], ?_⟩
      intro t ht
      simp only [iteration, selectEvent] at ht
      cases ht
      simp [selectEvent, hact]
    | keyPress k =>
      refine ⟨by simp [iteration, selectEvent], ?_⟩
      intro t ht
      simp only [iteration, selectEvent, dispatchEvent, consumeSource] at ht
      cases ht
      rw [applyFeedback_active]
      simp only [hact, Bool.true_eq_false, false_or]
      constructor
      · intro hq
        exact ⟨Event.Key k, rfl, rfl, hq⟩
      · rintro ⟨e, he, -, hq⟩
        simp only [selectEvent, SelectResult.ev.injEq, Option.some.injEq] at he
        rw [← he] at hq
        exact hq
    | otherInput =>
      refine ⟨by simp [iteration, selectEvent], ?_⟩
      intro t ht
      simp only [iteration, selectEvent, dispatchEvent, consumeSource] at ht
      cases ht
      simp only [applyFeedback, hact, Bool.true_eq_false, false_iff]
      rintro ⟨e, he, -, -⟩
      simp [selectEvent] at he
  | taskDone b =>
    refine ⟨by simp [iteration, selectEvent], ?_⟩
    intro t ht
    simp only [iteration, selectEvent, dispatchEvent, consumeSource] at ht
    cases ht
    rw [applyFeedback_active]
    simp only [hact, Bool.true_eq_false, false_or]
    constructor
    · intro hq
      exact ⟨Event.Backend b, rfl, rfl, hq⟩
    · rintro ⟨e, he, -, hq⟩
      simp only [selectEvent, SelectResult.ev.injEq, Option.some.injEq] at he
      rw [← he] at hq
      exact hq
  | timerFired =>
    refine ⟨by simp [iteration, selectEvent], ?_⟩
    intro t ht
    simp only [iteration, selectEvent, dispatchEvent, consumeSource] at ht
    cases ht
    simp only [applyFeedback, hact, Bool.true_eq_false, false_iff]
    rintro ⟨e, he, hscr, -⟩
    simp only [selectEvent, SelectResult.ev.injEq, Option.some.injEq] at he
    rw [← he] at hscr
    cases hscr

/-- C7 witness: from a fresh active state, a key press dispatched to a
screen answering `Quit` ends the loop normally, and a closed input
stream aborts the iteration. -/
theorem C7_exit_conditions_witness :
    iteration quitScreen initMux (Source.input RawInput.closed) = none ∧
    (∀ t, iteration quitScreen initMux (Source.input (RawInput.keyPress sampleKey))
        = some t →
      (t.active = false ↔
        ∃ e, selectEvent (Source.input (RawInput.keyPress sampleKey))
            = SelectResult.ev (some e) ∧ isScreenEvent e = true ∧
          quitScreen e = UiFeedback.Quit)) := by
  constructor
  · exact (C7_exit_conditions quitScreen initMux rfl
      (Source.input RawInput.closed)).1.mpr (Or.inl rfl)
  · exact (C7_exit_conditions quitScreen initMux rfl
      (Source.input (RawInput.keyPress sampleKey))).2

/-- C8: the startup block always resets `selected_strategy` to `None`
regardless of its persisted value; a loaded identity is inserted into
`known_identities` only when no entry for its id exists (an existing
entry — indeed the whole map — is left unchanged), and without a loaded
identity the map is untouched. -/
theorem C8_startup_init (st : AppState) :
    (startupInit st).selected_strategy = none ∧
    (st.loaded_identity = none →
      (startupInit st).known_identities = st.known_identities) ∧
    (∀ ident, st.loaded_identity = some ident →
      (((st.known_identities.lookup ident.id).isSome = true →
          (startupInit st).known_identities = st.known_identities) ∧
       (st.known_identities.lookup ident.id = none →
          (startupInit st).known_identities
            = (ident.id, ident) :: st.known_identities))) := by
  refine ⟨rfl, ?_, ?_⟩
  · intro h
    simp [startupInit, h]
  · intro ident h
    constructor
    · intro hsome
      simp [startupInit, h, orInsertWith, hsome]
    · intro hnone
      simp [startupInit, h, orInsertWith, hnone]

/-- C8 witness: a state with a loaded identity absent from the map and
a stale strategy selection ends with the identity inserted and the
selection cleared. -/
theorem C8_startup_init_witness :
    (startupInit sampleAppState).selected_strategy = none ∧
    (startupInit sampleAppState).known_identities
      = (1, sampleIdentity) :: sampleAppState.known_identities := by
  have h := C8_startup_init sampleAppState
  exact ⟨h.1, (h.2.2 sampleIdentity rfl).2 rfl⟩

/-- C9: `fetch_identity_bytes_by_b58_id` returns `Ok(bytes)` exactly
when the base58 id parses and the remote call returns a successful
`GetIdentityResponse` carrying identity bytes; every other outcome is
one of the two typed errors (invalid identifier or `DapiError`), so the
UI layer never observes a raw transport failure. -/
theorem C9_classified_results {ε : Type}
    (parseB58 : String → Option Identifier)
    (execute : Identifier → Except ε GetIdentityResponse)
    (b58_id : String) :
    (∀ bytes, fetch_identity_bytes_by_b58_id parseB58 execute b58_id
        = Except.ok bytes ↔
      ∃ identifier, parseB58 b58_id = some identifier ∧
        ∃ resp, execute identifier = Except.ok resp ∧
          resp.result = some (ProtoResult.Identity bytes)) ∧
    (∀ e, fetch_identity_bytes_by_b58_id parseB58 execute b58_id
        = Except.error e →
      e = AppError.InvalidIdentifier ∨ e = AppError.DapiError) := by
  cases hp : parseB58 b58_id with
  | none =>
    constructor
    · intro bytes
      simp [fetch_identity_bytes_by_b58_id, hp]
    · intro e he
      simp only [fetch_identity_bytes_by_b58_id, hp, Except.error.injEq] at he
      exact Or.inl he.symm
  | some identifier =>
    cases hx : execute identifier with
    | error failure =>
      constructor
      · intro bytes
        simp [fetch_identity_bytes_by_b58_id, hp, hx]
      · intro e he
        simp only [fetch_identity_bytes_by_b58_id, hp, hx, Except.error.injEq] at he
        exact Or.inr he.symm
    | ok resp =>
      cases hr : resp.result with
      | none =>
        constructor
        · intro bytes
          simp [fetch_identity_bytes_by_b58_id, hp, hx, hr]
        · intro e he
          simp only [fetch_identity_bytes_by_b58_id, hp, hx, hr,
            Except.error.injEq] at he
          exact Or.inr he.symm
      | some pr =>
        cases pr with
        | Identity bytes2 =>
          constructor
          · intro bytes
            simp [fetch_identity_bytes_by_b58_id, hp, hx, hr]
          · intro e he
            simp [fetch_identity_bytes_by_b58_id, hp, hx, hr] at he
        | Proof p =>
          constructor
          · intro bytes
            simp [fetch_identity_bytes_by_b58_id, hp, hx, hr]
          · intro e he
            simp only [fetch_identity_bytes_by_b58_id, hp, hx, hr,
              Except.error.injEq] at he
            exact Or.inr he.symm

/-- C9 witness: with a parser accepting the id and a transport returning
identity bytes `[1, 2]`, the fetch yields `Ok([1, 2])`. -/
theorem C9_classified_results_witness :
    fetch_identity_bytes_by_b58_id sampleParse sampleExecute "someId"
      = Except.ok [1, 2] :=
  ((C9_classified_results sampleParse sampleExecute "someId").1 [1, 2]).mpr
    ⟨42, rfl, ⟨{ result := some (ProtoResult.Identity [1, 2]), metadata := none },
      rfl, rfl⟩⟩

/-- C10 counterexample: a screen with a non-empty batch and the cursor
in bounds, but whose document type has no contested index.  The
selected resource exists, yet the `'v'` handler hits its second
`expect` and aborts (`none`) instead of returning the
`QueryVoteContenders` task the claim promises. -/
theorem C10_counterexample :
    noIndexScreen.current_batch ≠ [] ∧
    get_selected_resource noIndexScreen = some 7 ∧
    noIndexScreen.on_event vKey = none := by
  refine ⟨by decide, rfl, rfl⟩

/-- C10 (amended): `get_selected_resource` is `none` exactly when the
selected index is out of bounds of `current_batch` (in particular when
the batch is empty); and when a resource is selected AND the document
type has a contested index, the `'v'` handler does not abort and
returns a blocking `QueryVoteContenders` task whose `index_values` is
the one-element list of the selected resource. -/
theorem C10_selected_resource_and_vote (s : ContestedResourcesScreenController) :
    (get_selected_resource s = none ↔
      s.current_batch.length ≤ s.selected_index) ∧
    (s.current_batch = [] → get_selected_resource s = none) ∧
    (∀ v index, get_selected_resource s = some v →
      s.document_type.find_contested_index = some index →
      s.on_event vKey = some (s, ScreenFeedback.Task
        (Task.Document (DocumentTask.QueryVoteContenders index.name [v]
          s.document_type.name s.data_contract_id)) true)) := by
  have h1 : get_selected_resource s = none ↔
      s.current_batch.length ≤ s.selected_index := by
    unfold get_selected_resource
    cases ho : s.current_batch.get? s.selected_index with
    | none =>
      simp only [Option.none_bind]
      simp only [List.get?_eq_none] at ho
      simp [ho]
    | some doc =>
      cases doc with
      | Value v =>
        simp only [Option.some_bind]
        constructor
        · intro h
          exact Option.noConfusion h
        · intro hlen
          have hnone : s.current_batch.get? s.selected_index = none :=
            List.get?_eq_none.mpr hlen
          rw [hnone] at ho
          exact Option.noConfusion ho
  refine ⟨h1, ?_, ?_⟩
  · intro hnil
    apply h1.mpr
    rw [hnil]
    exact Nat.zero_le _
  · intro v index hv hidx
    show (match get_selected_resource s with
      | none => none
      | some resource =>
        match s.document_type.find_contested_index with
        | none => none
        | some index =>
          some (s, ScreenFeedback.Task
            (Task.Document (DocumentTask.QueryVoteContenders index.name [resource]
              s.document_type.name s.data_contract_id)) true)) = _
    rw [hv, hidx]

/-- C10 witness: on the same screen but with a contested index named
`idx`, pressing `'v'` yields the blocking `QueryVoteContenders` task
carrying exactly the selected resource. -/
theorem C10_selected_resource_and_vote_witness :
    withIndexScreen.on_event vKey = some (withIndexScreen,
      ScreenFeedback.Task
        (Task.Document (DocumentTask.QueryVoteContenders "idx" [7] "doc" 1)) true) :=
  (C10_selected_resource_and_vote withIndexScreen).2.2 7 { name := "idx" } rfl rfl

end PlatformTui
